import Mathlib

/-!
Shallow embedding of the client-side data-orchestration core of the
aviation-weather leaderboard app (src/frontend/src/App.jsx, three
concatenated variants of App.jsx).  JavaScript values that the code
inspects dynamically (truthiness, `typeof`) are modelled by an explicit
`JsVal` type; machine floats are modelled by `JsNumber`, which keeps the
NaN / infinity / finite distinction that `typeof` and truthiness depend
on, with finite values as exact decimals `mantissa * 10 ^ (-exp10)`.
Fallible code is modelled with `Except`; the asynchronous fetch is an
oracle `String → FetchResponse` passed explicitly.
-/

/-- A JavaScript number: NaN, ±Infinity, or a finite decimal
`mantissa / 10 ^ exp10`.  Exact decimals suffice for every value this
program manipulates (coordinates, scores, integer query parameters). -/
inductive JsNumber where
  | nan : JsNumber
  | inf (pos : Bool) : JsNumber
  | fin (mantissa : Int) (exp10 : Nat) : JsNumber
  deriving DecidableEq, Repr

/-- The JavaScript values the embedded code inspects dynamically. -/
inductive JsVal where
  | undef : JsVal
  | null : JsVal
  | bool (b : Bool) : JsVal
  | num (n : JsNumber) : JsVal
  | str (s : String) : JsVal
  deriving DecidableEq, Repr

/-- JavaScript truthiness: `undefined`, `null`, `false`, `0`, `NaN` and
`""` are falsy, everything else is truthy. -/
def JsVal.truthy : JsVal → Bool
  | .undef => false
  | .null => false
  | .bool b => b
  | .num .nan => false
  | .num (.inf _) => true
  | .num (.fin m _) => m != 0
  | .str s => s != ""

/-- `a || b` in JavaScript: the first operand if truthy, otherwise the
second. -/
def jsOr (a b : JsVal) : JsVal := if a.truthy then a else b

/-- `typeof v === "number"` — true for every `num`, including NaN and
the infinities. -/
def JsVal.typeofNumber : JsVal → Bool
  | .num _ => true
  | _ => false

/-- Drop factors of 10 from a finite decimal so that the rendering below
matches the canonical (shortest) JavaScript form. -/
def JsNumber.normFin : Int → Nat → Int × Nat
  | m, 0 => (m, 0)
  | m, e + 1 => if m % 10 == 0 then JsNumber.normFin (m / 10) e else (m, e + 1)

/-- Decimal rendering of a finite JavaScript number (integer part,
point, fractional digits; trailing zeros stripped).  Exponent notation
for extreme magnitudes is out of scope: no value in this program
reaches it. -/
def JsNumber.finToString (m : Int) (e : Nat) : String :=
  let p := JsNumber.normFin m e
  let m := p.1
  let e := p.2
  if e = 0 then toString m
  else
    let sign := if m < 0 then "-" else ""
    let digits := toString m.natAbs
    let digits :=
      if digits.length ≤ e then String.mk (List.replicate (e + 1 - digits.length) '0') ++ digits
      else digits
    let k := digits.length - e
    sign ++ (digits.take k) ++ "." ++ (digits.drop k)

/-- JavaScript `String(v)` / `v.toString()` coercion. -/
def JsVal.jsToString : JsVal → String
  | .undef => "undefined"
  | .null => "null"
  | .bool true => "true"
  | .bool false => "false"
  | .num .nan => "NaN"
  | .num (.inf true) => "Infinity"
  | .num (.inf false) => "-Infinity"
  | .num (.fin m e) => JsNumber.finToString m e
  | .str s => s

/-- One leaderboard row, as delivered by the backend.  `station` is a
string or absent (`none` models a missing/null field); the coordinate,
score and text fields are dynamically inspected, so they stay `JsVal`. -/
structure Row where
  station : Option String := none
  lat : JsVal := .undef
  lon : JsVal := .undef
  score : JsVal := .undef
  text : JsVal := .undef
  metar : JsVal := .undef
  deriving DecidableEq, Repr

/-- `getRowText` (App.jsx line 474): `(r?.text || r?.metar || "").toString()` —
current-schema `text` first, legacy `metar` second, empty string last,
coerced to a string. -/
def getRowText (r : Row) : String :=
  (jsOr r.text (jsOr r.metar (.str ""))).jsToString

/-- Marker eligibility (App.jsx lines 88-90, 536, 924-926):
`typeof r.lat === "number" && typeof r.lon === "number"`. -/
def markerEligible (r : Row) : Bool :=
  r.lat.typeofNumber && r.lon.typeofNumber

/-- `rows.filter(...)` deriving the map markers. -/
def markers (rows : List Row) : List Row := rows.filter markerEligible

/-- ASCII uppercasing of one character, the fragment of JavaScript
`toUpperCase` exercised by ICAO station identifiers. -/
def jsCharUpper (c : Char) : Char :=
  if 'a' ≤ c ∧ c ≤ 'z' then Char.ofNat (c.toNat - 32) else c

/-- JavaScript `s.toUpperCase()` on the ASCII strings this app
compares. -/
def jsToUpper (s : String) : String := String.mk (s.data.map jsCharUpper)

/-- JavaScript `s.trim()`: strip leading and trailing whitespace. -/
def jsTrim (s : String) : String :=
  String.mk (((s.data.dropWhile Char.isWhitespace).reverse.dropWhile Char.isWhitespace).reverse)

/-- Station lookup (App.jsx lines 336-338 and 766):
`rows.find((r) => (r.station || "").toUpperCase() === (icao || "").toUpperCase())`.
Note: case-insensitive, but NOT whitespace-trimmed. -/
def resolveStation (rows : List Row) (icao : Option String) : Option Row :=
  rows.find? (fun r => jsToUpper (r.station.getD "") == jsToUpper (icao.getD ""))

/-- A decoded leaderboard payload.  `rows = none` models a response body
whose `rows` field is absent or null. -/
structure Payload where
  rows : Option (List Row) := none
  generated_at_utc : Option String := none
  deriving DecidableEq, Repr

/-- `data.rows || []`: a present array (even empty) is truthy and passes
through; an absent/null field yields `[]`. -/
def orEmptyRows (v : Option (List Row)) : List Row := v.getD []

/-- `data.generated_at_utc || null`: a non-empty string passes through;
an absent field or empty string yields null. -/
def orNullGenerated (v : Option String) : Option String :=
  match v with
  | some s => if s = "" then none else some s
  | none => none

/-- The visible state of a leaderboard page: the leaderboard fields
(`rows`, `generatedAt`, `loading`, `err`) and, in variant 2, the radar
fields (`radarUrl`, `radarErr`). -/
structure PageState where
  rows : List Row := []
  generatedAt : Option String := none
  loading : Bool := false
  err : String := ""
  radarUrl : Option String := none
  radarErr : String := ""
  deriving DecidableEq, Repr

/-- The synchronous prefix of every `load` tick:
`setLoading(true); setErr("")`. -/
def loadStart (s : PageState) : PageState :=
  { s with loading := true, err := "" }

/-- Completion of variant 1's `load` (App.jsx lines 95-110): on success
apply the new snapshot; on failure set the error message AND clear the
rows and the timestamp (`setErr(String(e)); setRows([]); setGeneratedAt(null)`);
`finally setLoading(false)`. -/
def loadFinishV1 (s : PageState) (result : Except String Payload) : PageState :=
  match result with
  | .ok data =>
      { s with rows := orEmptyRows data.rows,
               generatedAt := orNullGenerated data.generated_at_utc,
               loading := false }
  | .error e =>
      { s with err := e, rows := [], generatedAt := none, loading := false }

/-- Completion of variant 2's `load` (App.jsx lines 541-549) and of
variant 3's `load` (lines 904-914), which are identical in effect: on
success apply the new snapshot; on failure only `setErr(String(e))` —
rows and timestamp are left untouched; `finally setLoading(false)`. -/
def loadFinishV2 (s : PageState) (result : Except String Payload) : PageState :=
  match result with
  | .ok data =>
      { s with rows := orEmptyRows data.rows,
               generatedAt := orNullGenerated data.generated_at_utc,
               loading := false }
  | .error e =>
      { s with err := e, loading := false }

/-- One whole tick of variant 1's `load`. -/
def loadTickV1 (s : PageState) (result : Except String Payload) : PageState :=
  loadFinishV1 (loadStart s) result

/-- One whole tick of variant 2's / variant 3's `load`. -/
def loadTickV2 (s : PageState) (result : Except String Payload) : PageState :=
  loadFinishV2 (loadStart s) result

/-- Teardown of the leaderboard polling effects (App.jsx lines 116,
556-557, 920): the cleanup only runs `clearInterval(t)`; it sets no
liveness flag, so the visible state and the pending response handler
are untouched. -/
def lbCleanup (s : PageState) : PageState := s

/-- The synchronous prefix of a radar tick: `setRadarErr("")` (run
before the await, unguarded). -/
def radarStart (s : PageState) : PageState := { s with radarErr := "" }

/-- Completion of `loadRadar` (App.jsx lines 564-572 and 748-756): the
result is applied only `if (alive)`; the cleanup of the radar effect
sets `alive = false` (lines 576-579, 760-763), so a response that
resolves after teardown is discarded. -/
def radarFinish (alive : Bool) (s : PageState) (result : Except String String) : PageState :=
  match result with
  | .ok url => if alive then { s with radarUrl := some url } else s
  | .error e => if alive then { s with radarErr := e } else s

/-- One whole radar tick under liveness flag `alive`. -/
def radarTick (alive : Bool) (s : PageState) (result : Except String String) : PageState :=
  radarFinish alive (radarStart s) result

/-- The URL built by `fetchProduct` (App.jsx lines 26-36), or the thrown
error for an unknown product.  The throw happens before any `fetch`. -/
def buildProductUrl (product : String) (top : Int) (conus : Bool) (hours : Int) :
    Except String String :=
  if product = "METAR" then
    .ok ("/api/leaderboard?top=" ++ toString top ++ "&conus=" ++ (if conus then "true" else "false"))
  else if product = "TAF" then
    .ok ("/api/taf?top=" ++ toString top)
  else if product = "PIREP" then
    .ok ("/api/pirep?top=" ++ toString top ++ "&hours=" ++ toString hours)
  else
    .error ("Unknown product: " ++ product)

/-- The observable behaviour of one `fetch(url)` call: the `ok` flag and
`status` of the response, the resolved `r.text()` body (a rejected
`text()` is caught and folded into `""` by the source), and the decoded
`r.json()` result. -/
structure FetchResponse where
  ok : Bool := true
  status : Nat := 200
  body : String := ""
  json : Except String Payload := .ok {}
  deriving Repr

/-- `fetchProduct` (App.jsx lines 26-44) against a fetch oracle.  Returns
the list of URLs actually fetched together with the result: an unknown
product throws `Unknown product: ...` before any network call; a non-2xx
response throws the trimmed `HTTP <status> <body>` message; otherwise the
decoded JSON is returned. -/
def fetchProduct (oracle : String → FetchResponse) (product : String) (top : Int)
    (conus : Bool) (hours : Int) : List String × Except String Payload :=
  match buildProductUrl product top conus hours with
  | .error e => ([], .error e)
  | .ok url =>
      let r := oracle url
      if r.ok then ([url], r.json)
      else ([url], .error (("HTTP " ++ toString r.status ++ " " ++ r.body).trim))

/-- One entry of the RainViewer past-frames list; `path = none` models a
frame object without a usable `path`. -/
structure RVFrame where
  path : Option String := none
  deriving DecidableEq, Repr

/-- The `radar` object of the RainViewer metadata document.  `past = none`
models an absent or non-array field (the source checks
`Array.isArray(frames)`). -/
structure RVRadar where
  past : Option (List RVFrame) := none
  deriving DecidableEq, Repr

/-- The decoded RainViewer weather-maps metadata document. -/
structure RVDoc where
  host : Option String := none
  radar : Option RVRadar := none
  deriving DecidableEq, Repr

/-- The document-processing part of `fetchRainViewerLatestTileUrl`
(App.jsx lines 488-498): take the last entry of `data?.radar?.past`
(null when the list is absent, not an array, or empty), read its `path`,
throw `RainViewer response missing host/path` when host or path is
falsy, and otherwise build
`host ++ path ++ "/" ++ size ++ "/{z}/{x}/{y}/" ++ color ++ "/" ++ options ++ ".png"`
with `{z}/{x}/{y}` as literal placeholders. -/
def fetchRainViewerLatestTileUrl (data : RVDoc) (size : Int) (color : Int)
    (options : String) : Except String String :=
  let host := data.host.getD ""
  let frames := data.radar.bind RVRadar.past
  let latest := frames.bind List.getLast?
  let path := (latest.bind RVFrame.path).getD ""
  if host = "" ∨ path = "" then .error "RainViewer response missing host/path"
  else .ok (host ++ path ++ "/" ++ toString size ++ "/\x7bz\x7d/\x7bx\x7d/\x7by\x7d/"
            ++ toString color ++ "/" ++ options ++ ".png")

/-! ### Helper lemmas -/

/-- `find?` returns an element satisfying the predicate, and it is the
first such element: everything before it in the list fails the
predicate. -/
theorem find?_eq_some_first {α : Type} (p : α → Bool) (l : List α) (a : α)
    (h : l.find? p = some a) :
    p a = true ∧ ∃ pre post, l = pre ++ a :: post ∧ ∀ x ∈ pre, ¬p x = true := by
  induction l with
  | nil => simp [List.find?] at h
  | cons b t ih =>
    by_cases hb : p b = true
    · rw [List.find?_cons_of_pos t hb] at h
      have hba := Option.some.inj h
      subst hba
      exact ⟨hb, [], t, rfl, by simp⟩
    · rw [List.find?_cons_of_neg t hb] at h
      obtain ⟨hpa, pre, post, hl, hpre⟩ := ih h
      subst hl
      refine ⟨hpa, b :: pre, post, rfl, ?_⟩
      intro x hx
      rcases List.mem_cons.mp hx with rfl | hx
      · exact hb
      · exact hpre x hx

/-- Two character lists with distinct heads at a common index stay
distinct under arbitrary right extension. -/
theorem append_data_ne (s₁ s₂ : String) (r₁ r₂ : List Char) (n : Nat)
    (h₁ : n < s₁.data.length) (h₂ : n < s₂.data.length)
    (hne : s₁.data[n]? ≠ s₂.data[n]?) :
    s₁.data ++ r₁ ≠ s₂.data ++ r₂ := by
  intro h
  apply hne
  have e₁ : (s₁.data ++ r₁)[n]? = s₁.data[n]? := by
    rw [List.getElem?_append]
    exact if_pos h₁
  have e₂ : (s₂.data ++ r₂)[n]? = s₂.data[n]? := by
    rw [List.getElem?_append]
    exact if_pos h₂
  rw [← e₁, ← e₂, h]

/-- The three product endpoints are pairwise distinct, for any
parameter values. -/
theorem buildProductUrl_pairwise_ne (t₁ t₂ : Int) (c₁ c₂ : Bool) (h₁ h₂ : Int) :
    buildProductUrl "METAR" t₁ c₁ h₁ ≠ buildProductUrl "TAF" t₂ c₂ h₂
    ∧ buildProductUrl "METAR" t₁ c₁ h₁ ≠ buildProductUrl "PIREP" t₂ c₂ h₂
    ∧ buildProductUrl "TAF" t₁ c₁ h₁ ≠ buildProductUrl "PIREP" t₂ c₂ h₂ := by
  have eM : buildProductUrl "METAR" t₁ c₁ h₁
      = .ok ("/api/leaderboard?top=" ++ toString t₁ ++ "&conus="
             ++ (if c₁ then "true" else "false")) := rfl
  have eT₁ : buildProductUrl "TAF" t₁ c₁ h₁ = .ok ("/api/taf?top=" ++ toString t₁) := rfl
  have eT₂ : buildProductUrl "TAF" t₂ c₂ h₂ = .ok ("/api/taf?top=" ++ toString t₂) := rfl
  have eP : buildProductUrl "PIREP" t₂ c₂ h₂
      = .ok ("/api/pirep?top=" ++ toString t₂ ++ "&hours=" ++ toString h₂) := rfl
  refine ⟨?_, ?_, ?_⟩
  · intro hEq
    rw [eM, eT₂] at hEq
    injection hEq with hu
    have hd := congrArg String.data hu
    simp only [String.data_append, List.append_assoc] at hd
    exact append_data_ne _ _ _ _ 5 (by decide) (by decide) (by decide) hd
  · intro hEq
    rw [eM, eP] at hEq
    injection hEq with hu
    have hd := congrArg String.data hu
    simp only [String.data_append, List.append_assoc] at hd
    exact append_data_ne _ _ _ _ 5 (by decide) (by decide) (by decide) hd
  · intro hEq
    rw [eT₁, eP] at hEq
    injection hEq with hu
    have hd := congrArg String.data hu
    simp only [String.data_append, List.append_assoc] at hd
    exact append_data_ne _ _ _ _ 5 (by decide) (by decide) (by decide) hd


/-- When the dispatcher accepts the product, exactly the built URL is
fetched. -/
theorem fetchProduct_calls_of_ok (oracle : String → FetchResponse) (p : String) (top : Int)
    (conus : Bool) (hours : Int) (url : String)
    (hu : buildProductUrl p top conus hours = .ok url) :
    (fetchProduct oracle p top conus hours).1 = [url] := by
  unfold fetchProduct
  rw [hu]
  dsimp only
  split <;> rfl

/-! ### Claim theorems -/

/-- C6: for every product value other than METAR, TAF and PIREP, the
dispatcher fails with the unknown-product error and issues no network
call (the list of fetched URLs is empty, for every oracle); for the
three known products it fetches exactly the product's URL (METAR uses
`top` and `conus`, TAF uses `top` only, PIREP uses `top` and `hours`),
and the three request URLs are pairwise distinct. -/
theorem c6_fetchProduct_dispatch :
    (∀ (oracle : String → FetchResponse) (p : String) (top : Int) (conus : Bool) (hours : Int),
        p ≠ "METAR" → p ≠ "TAF" → p ≠ "PIREP" →
        fetchProduct oracle p top conus hours = ([], .error ("Unknown product: " ++ p)))
    ∧ (∀ (oracle : String → FetchResponse) (top : Int) (conus : Bool) (hours : Int),
        (fetchProduct oracle "METAR" top conus hours).1
          = ["/api/leaderboard?top=" ++ toString top ++ "&conus="
             ++ (if conus then "true" else "false")]
        ∧ (fetchProduct oracle "TAF" top conus hours).1 = ["/api/taf?top=" ++ toString top]
        ∧ (fetchProduct oracle "PIREP" top conus hours).1
          = ["/api/pirep?top=" ++ toString top ++ "&hours=" ++ toString hours])
    ∧ (∀ (t₁ t₂ : Int) (c₁ c₂ : Bool) (h₁ h₂ : Int),
        buildProductUrl "METAR" t₁ c₁ h₁ ≠ buildProductUrl "TAF" t₂ c₂ h₂
        ∧ buildProductUrl "METAR" t₁ c₁ h₁ ≠ buildProductUrl "PIREP" t₂ c₂ h₂
        ∧ buildProductUrl "TAF" t₁ c₁ h₁ ≠ buildProductUrl "PIREP" t₂ c₂ h₂) := by
  refine ⟨?_, ?_, fun t₁ t₂ c₁ c₂ h₁ h₂ => buildProductUrl_pairwise_ne t₁ t₂ c₁ c₂ h₁ h₂⟩
  · intro oracle p top conus hours h₁ h₂ h₃
    unfold fetchProduct buildProductUrl
    rw [if_neg h₁, if_neg h₂, if_neg h₃]
  · intro oracle top conus hours
    exact ⟨fetchProduct_calls_of_ok oracle "METAR" top conus hours _ rfl,
           fetchProduct_calls_of_ok oracle "TAF" top conus hours _ rfl,
           fetchProduct_calls_of_ok oracle "PIREP" top conus hours _ rfl⟩

/-- C6 witness: `"SIGMET"` with concrete parameters is rejected with
the unknown-product error and fetches nothing. -/
theorem c6_fetchProduct_dispatch_witness :
    fetchProduct (fun _ => {}) "SIGMET" 25 true 24
      = ([], .error ("Unknown product: " ++ "SIGMET")) :=
  c6_fetchProduct_dispatch.1 (fun _ => {}) "SIGMET" 25 true 24
    (by decide) (by decide) (by decide)

/-- C7: the normalizer resolves the report text by trying the primary
`text` field first, then the legacy `metar` field, defaulting to the
empty string when neither is present; when exactly one of the two is a
populated (non-empty) string the output equals it; and a payload whose
`rows` field is absent is treated as an empty snapshot. -/
theorem c7_getRowText_compat :
    (∀ (s : String) (m : JsVal), s ≠ "" → getRowText { text := .str s, metar := m } = s)
    ∧ (∀ m : String, m ≠ "" →
        getRowText { text := .undef, metar := .str m } = m
        ∧ getRowText { text := .null, metar := .str m } = m)
    ∧ getRowText { text := .undef, metar := .undef } = ""
    ∧ (∀ d : Payload, d.rows = none → orEmptyRows d.rows = []) := by
  refine ⟨?_, ?_, rfl, ?_⟩
  · intro s m h
    have ht : (JsVal.str s).truthy = true := by simp [JsVal.truthy, h]
    simp [getRowText, jsOr, ht, JsVal.jsToString]
  · intro m h
    constructor <;> simp [getRowText, jsOr, JsVal.truthy, JsVal.jsToString, h]
  · intro d hd
    rw [hd]
    rfl

/-- C7 witness: a new-schema row keeps its `text`, a legacy row falls
back to `metar`, and a rows-less payload yields the empty snapshot. -/
theorem c7_getRowText_compat_witness :
    getRowText { text := .str "KDEN 251652Z 10SM CLR", metar := .undef } = "KDEN 251652Z 10SM CLR"
    ∧ getRowText { text := .undef, metar := .str "KJFK 251651Z 5SM BR" } = "KJFK 251651Z 5SM BR"
    ∧ orEmptyRows (Payload.rows {}) = [] :=
  ⟨c7_getRowText_compat.1 "KDEN 251652Z 10SM CLR" .undef (by decide),
   (c7_getRowText_compat.2.1 "KJFK 251651Z 5SM BR" (by decide)).1,
   c7_getRowText_compat.2.2.2 {} rfl⟩

/-- C9: a radar tick — in particular a failing one — only ever touches
the radar-specific fields: the leaderboard rows, timestamp, error
message and loading flag are all left unchanged, and a failure under a
live flag is reported in `radarErr`. -/
theorem c9_radar_failure_isolated :
    (∀ (alive : Bool) (s : PageState) (r : Except String String),
        (radarTick alive s r).rows = s.rows
        ∧ (radarTick alive s r).generatedAt = s.generatedAt
        ∧ (radarTick alive s r).err = s.err
        ∧ (radarTick alive s r).loading = s.loading)
    ∧ (∀ (s : PageState) (msg : String), (radarTick true s (.error msg)).radarErr = msg) := by
  constructor
  · intro alive s r
    cases r <;> cases alive <;> simp [radarTick, radarStart, radarFinish]
  · intro s msg
    rfl

/-- C10: a falsy primary `text` field (present-but-empty string, zero,
NaN, false, null, undefined — not only a missing key) is skipped and a
non-empty legacy `metar` string is used, the result being returned as a
string. -/
theorem c10_getRowText_falsy_primary :
    ∀ (t : JsVal) (m : String), t.truthy = false → m ≠ "" →
      getRowText { text := t, metar := .str m } = m := by
  intro t m ht hm
  have hmt : (JsVal.str m).truthy = true := by simp [JsVal.truthy, hm]
  simp [getRowText, jsOr, ht, hmt, JsVal.jsToString]

/-- C10 witness: a row whose `text` key is present but empty falls back
to the legacy `metar` string. -/
theorem c10_getRowText_falsy_primary_witness :
    getRowText { text := .str "", metar := .str "KDEN 251651Z 10SM CLR" }
      = "KDEN 251651Z 10SM CLR" :=
  c10_getRowText_falsy_primary (.str "") "KDEN 251651Z 10SM CLR" (by decide) (by decide)

/-- C8: the radar tile resolver takes the last entry of the past-frames
list and, with `size=256, color=2, options="1_1"`, yields
`{host}{path}/256/{z}/{x}/{y}/2/1_1.png` with the `{z}/{x}/{y}`
placeholders literal (the spec's worked example included); in general a
trailing frame with a usable path yields the template, and the resolver
fails with the radar-metadata error whenever the host is absent or
empty, the radar object or frame list is absent/malformed, the frame
list is empty, or the last frame has no path. -/
theorem c8_radar_tile_resolver :
    fetchRainViewerLatestTileUrl
        { host := some "https://x",
          radar := some { past := some [{ path := some "/a" }, { path := some "/b" }] } }
        256 2 "1_1" = .ok "https://x/b/256/\x7bz\x7d/\x7bx\x7d/\x7by\x7d/2/1_1.png"
    ∧ (∀ (h p : String) (frames : List RVFrame) (size color : Int) (options : String),
        h ≠ "" → p ≠ "" →
        fetchRainViewerLatestTileUrl
            { host := some h, radar := some { past := some (frames ++ [{ path := some p }]) } }
            size color options
          = .ok (h ++ p ++ "/" ++ toString size ++ "/\x7bz\x7d/\x7bx\x7d/\x7by\x7d/"
                 ++ toString color ++ "/" ++ options ++ ".png"))
    ∧ (∀ (d : RVDoc) (size color : Int) (options : String),
        d.host.getD "" = "" →
        fetchRainViewerLatestTileUrl d size color options
          = .error "RainViewer response missing host/path")
    ∧ (∀ (host : String) (size color : Int) (options : String),
        fetchRainViewerLatestTileUrl { host := some host, radar := none } size color options
          = .error "RainViewer response missing host/path"
        ∧ fetchRainViewerLatestTileUrl { host := some host, radar := some { past := none } }
            size color options = .error "RainViewer response missing host/path"
        ∧ fetchRainViewerLatestTileUrl { host := some host, radar := some { past := some [] } }
            size color options = .error "RainViewer response missing host/path"
        ∧ ∀ frames : List RVFrame,
            fetchRainViewerLatestTileUrl
                { host := some host, radar := some { past := some (frames ++ [{ path := none }]) } }
                size color options = .error "RainViewer response missing host/path") := by
  refine ⟨by rfl, ?_, ?_, ?_⟩
  · intro h p frames size color options hh hp
    simp [fetchRainViewerLatestTileUrl, List.getLast?_concat, hh, hp]
  · intro d size color options hd
    simp [fetchRainViewerLatestTileUrl, hd]
  · intro host size color options
    refine ⟨by simp [fetchRainViewerLatestTileUrl], by simp [fetchRainViewerLatestTileUrl],
            by simp [fetchRainViewerLatestTileUrl], ?_⟩
    intro frames
    simp [fetchRainViewerLatestTileUrl, List.getLast?_concat]

/-- C8 witness: the spec's worked example, obtained from the general
last-frame law at host `https://x` and past frames `/a`, `/b`. -/
theorem c8_radar_tile_resolver_witness :
    fetchRainViewerLatestTileUrl
        { host := some "https://x",
          radar := some { past := some ([{ path := some "/a" }] ++ [{ path := some "/b" }]) } }
        256 2 "1_1"
      = .ok ("https://x" ++ "/b" ++ "/" ++ toString (256 : Int) ++ "/\x7bz\x7d/\x7bx\x7d/\x7by\x7d/"
             ++ toString (2 : Int) ++ "/" ++ "1_1" ++ ".png") :=
  c8_radar_tile_resolver.2.1 "https://x" "/b" [{ path := some "/a" }] 256 2 "1_1"
    (by decide) (by decide)

/-- C1 (amended): every failing leaderboard tick surfaces the error as
the user-visible message string, and in the variant-2/variant-3 `load`
the previously held snapshot is preserved (rows and generatedAtUtc
unchanged); but in the variant-1 `load` a failing tick clears the
snapshot — rows become empty and generatedAtUtc null — instead of
preserving it. -/
theorem c1_load_failure_behavior :
    ∀ (s : PageState) (e : String),
      (loadTickV2 s (.error e)).err = e
      ∧ (loadTickV2 s (.error e)).rows = s.rows
      ∧ (loadTickV2 s (.error e)).generatedAt = s.generatedAt
      ∧ (loadTickV1 s (.error e)).err = e
      ∧ (loadTickV1 s (.error e)).rows = []
      ∧ (loadTickV1 s (.error e)).generatedAt = none := by
  intro s e
  refine ⟨rfl, rfl, rfl, rfl, rfl, rfl⟩

/-- C1 counterexample: a concrete variant-1 tick whose fetch fails does
NOT leave the previously held snapshot untouched — the visible rows and
generatedAtUtc change (they are blanked). -/
theorem c1_load_failure_counterexample :
    (loadTickV1 { rows := [{ station := some "KDEN" }],
                  generatedAt := some "2026-10-11T00:00:00Z" }
        (.error "Error: HTTP 500")).rows
      ≠ [{ station := some "KDEN" }]
    ∧ (loadTickV1 { rows := [{ station := some "KDEN" }],
                    generatedAt := some "2026-10-11T00:00:00Z" }
        (.error "Error: HTTP 500")).generatedAt
      ≠ some "2026-10-11T00:00:00Z" := by
  constructor <;> decide

/-- C2 (amended): after teardown the radar pollers discard a response
from a call started before the stop — the `alive` flag is false, so the
response leaves the state unchanged; the leaderboard pollers however
have no liveness guard: their teardown only clears the interval timer,
and a pre-stop response that resolves afterwards is still applied in
full (new rows and timestamp on success). -/
theorem c2_post_stop_response_behavior :
    (∀ (s : PageState) (r : Except String String), radarFinish false s r = s)
    ∧ (∀ (s : PageState) (r : Except String Payload),
        loadFinishV2 (lbCleanup s) r = loadFinishV2 s r)
    ∧ (∀ (s : PageState) (data : Payload),
        (loadFinishV2 (lbCleanup s) (.ok data)).rows = orEmptyRows data.rows
        ∧ (loadFinishV2 (lbCleanup s) (.ok data)).generatedAt
            = orNullGenerated data.generated_at_utc) := by
  refine ⟨?_, fun s r => rfl, fun s data => ⟨rfl, rfl⟩⟩
  intro s r
  cases r <;> rfl

/-- C2 counterexample: a concrete leaderboard response from a call
started before the stop, resolving after the teardown (which only
cleared the timer), still mutates the visible rows. -/
theorem c2_post_stop_response_counterexample :
    (loadFinishV2 (lbCleanup { rows := [] })
        (.ok { rows := some [{ station := some "KJFK" }] })).rows
      ≠ (lbCleanup { rows := [] }).rows := by
  decide

/-- C3 (amended): the station resolver returns the first row whose
`station` equals the identifier under case-insensitive comparison, and
not-found (not an error) when no row matches — but the comparison is
NOT whitespace-trimmed: resolving `"KDEN"` against rows `kden`,`KJFK`
returns the first row and `"kjfk"` returns the second, while `"kjfk "`
(trailing space) returns not-found. -/
theorem c3_resolveStation_spec :
    (∀ (rows : List Row) (icao : Option String),
        resolveStation rows icao = none ↔
          ∀ r ∈ rows, jsToUpper (r.station.getD "") ≠ jsToUpper (icao.getD ""))
    ∧ (∀ (rows : List Row) (icao : Option String) (r : Row),
        resolveStation rows icao = some r →
          jsToUpper (r.station.getD "") = jsToUpper (icao.getD "")
          ∧ ∃ pre post, rows = pre ++ r :: post
              ∧ ∀ q ∈ pre, jsToUpper (q.station.getD "") ≠ jsToUpper (icao.getD ""))
    ∧ resolveStation [{ station := some "kden" }, { station := some "KJFK" }] (some "KDEN")
        = some { station := some "kden" }
    ∧ resolveStation [{ station := some "kden" }, { station := some "KJFK" }] (some "kjfk")
        = some { station := some "KJFK" }
    ∧ resolveStation [{ station := some "kden" }, { station := some "KJFK" }] (some "KXYZ")
        = none
    ∧ resolveStation [{ station := some "kden" }, { station := some "KJFK" }] (some "kjfk ")
        = none := by
  refine ⟨?_, ?_, by decide, by decide, by decide, by decide⟩
  · intro rows icao
    simp [resolveStation, List.find?_eq_none]
  · intro rows icao r h
    obtain ⟨hp, pre, post, hl, hpre⟩ := find?_eq_some_first _ _ _ h
    refine ⟨by simpa using hp, pre, post, hl, ?_⟩
    intro q hq
    simpa using hpre q hq

/-- C3 witness: the first-match law applied to the spec's example
snapshot at identifier `KDEN`. -/
theorem c3_resolveStation_spec_witness :
    jsToUpper (({ station := some "kden" } : Row).station.getD "")
        = jsToUpper ((some "KDEN" : Option String).getD "")
    ∧ ∃ pre post,
        [{ station := some "kden" }, { station := some "KJFK" }]
          = pre ++ ({ station := some "kden" } : Row) :: post
        ∧ ∀ q ∈ pre, jsToUpper (Row.station q |>.getD "")
            ≠ jsToUpper ((some "KDEN" : Option String).getD "") :=
  c3_resolveStation_spec.2.1 [{ station := some "kden" }, { station := some "KJFK" }]
    (some "KDEN") { station := some "kden" } (by decide)

/-- C3 counterexample: resolving `"kjfk "` (trailing space) against a
snapshot holding a row with station `"KJFK"` does NOT return that row
(the lookup does no trimming, so it returns not-found). -/
theorem c3_resolveStation_counterexample :
    ¬ resolveStation [{ station := some "kden" }, { station := some "KJFK" }] (some "kjfk ")
        = some { station := some "KJFK" } := by
  decide

/-- C4 (amended): no PIREP filtering is applied anywhere between fetch
and visible state — a successful tick applies the fetched rows verbatim
(every row kept, order preserved), so rows whose text begins with
`"ARP"` and rows with empty text also reach the displayed result set. -/
theorem c4_rows_applied_verbatim :
    (∀ (s : PageState) (rowsList : List Row) (g : Option String),
        (loadTickV1 s (.ok { rows := some rowsList, generated_at_utc := g })).rows = rowsList)
    ∧ (loadTickV1 {}
        (.ok { rows := some [{ text := .str "ARP KXYZ 0815Z" }, { text := .str "  arp foo" },
                             { text := .str "" }, { text := .str "UA /OV KDEN..." }] })).rows
      = [{ text := .str "ARP KXYZ 0815Z" }, { text := .str "  arp foo" },
         { text := .str "" }, { text := .str "UA /OV KDEN..." }] := by
  exact ⟨fun s rowsList g => rfl, rfl⟩

/-- C4 counterexample: a row whose trimmed, case-normalized text begins
with the token `ARP` (its first three characters after trimming and
uppercasing are `A`,`R`,`P`) is NOT removed — after a successful PIREP
tick it is present in the visible rows. -/
theorem c4_arp_row_reaches_visible_state :
    (jsToUpper (jsTrim (getRowText { text := .str "ARP KXYZ 0815Z" }))).data.take 3
      = ['A', 'R', 'P']
    ∧ { text := JsVal.str "ARP KXYZ 0815Z" }
        ∈ (loadTickV1 {}
            (.ok { rows := some [{ text := JsVal.str "ARP KXYZ 0815Z" },
                                 { text := JsVal.str "UA /OV KDEN..." }] })).rows := by
  constructor <;> decide

/-- C5 (amended): a row is marker-eligible iff both `lat` and `lon` are
of JavaScript number type — which includes NaN and the infinities, so
NaN coordinates are NOT excluded; rows where either coordinate is
missing or a string are excluded, and the marker list is exactly the
eligible rows. -/
theorem c5_marker_eligibility :
    (∀ r : Row, markerEligible r = true ↔ (∃ n, r.lat = .num n) ∧ (∃ n, r.lon = .num n))
    ∧ (∀ (rows : List Row) (r : Row), r ∈ markers rows ↔ r ∈ rows ∧ markerEligible r = true)
    ∧ (∀ (r : Row) (s : String), r.lat = .str s → markerEligible r = false)
    ∧ (∀ (r : Row) (s : String), r.lon = .str s → markerEligible r = false)
    ∧ (∀ r : Row, r.lat = .undef → markerEligible r = false)
    ∧ (∀ r : Row, r.lon = .undef → markerEligible r = false) := by
  refine ⟨?_, ?_, ?_, ?_, ?_, ?_⟩
  · intro r
    obtain ⟨st, lat, lon, sc, tx, mt⟩ := r
    cases lat <;> cases lon <;> simp [markerEligible, JsVal.typeofNumber]
  · intro rows r
    exact List.mem_filter
  · intro r s h
    simp [markerEligible, h, JsVal.typeofNumber]
  · intro r s h
    simp [markerEligible, h, JsVal.typeofNumber]
  · intro r h
    simp [markerEligible, h, JsVal.typeofNumber]
  · intro r h
    simp [markerEligible, h, JsVal.typeofNumber]

/-- C5 witness: a row with a string latitude `"12.3"` is excluded from
marker eligibility. -/
theorem c5_marker_eligibility_witness :
    markerEligible { lat := .str "12.3", lon := .num (.fin 395 1) } = false :=
  c5_marker_eligibility.2.2.1 { lat := .str "12.3", lon := .num (.fin 395 1) } "12.3" rfl

/-- C5 counterexample: a row whose latitude is NaN (and longitude 39.5)
IS marker-eligible — `typeof NaN === "number"` holds, so the code does
not exclude NaN coordinates as the claim states. -/
theorem c5_nan_row_is_marker_eligible :
    markerEligible { lat := JsVal.num JsNumber.nan, lon := JsVal.num (JsNumber.fin 395 1) }
      = true := by
  decide
